import Mathlib

/-!
Shallow embedding of the budget-evaluation and monthly-aggregation core of the
personal-finance API (src/app/routes.py and src/app/models.py).

Modelling conventions:
* Monetary amounts are stored as SQL `Numeric(10,2)`, a fixed-point decimal
  with two fraction digits; SQL aggregates them exactly.  They are modelled as
  integer numbers of cents (`ℤ`), which is exact for every representable value.
  The Python-side `float(...)` casts at the query boundary are the subject of
  claim C7 and are not reproduced here (see RESULTS).
* Calendar dates are (year, month, day) triples ordered lexicographically,
  matching SQL `Date` comparison.
* The SQLAlchemy session is an explicit `Store` value; mutating handlers are
  functions `Store → ... → Option/Except (Store × List AlertEvent)`, where the
  event list records the alerts printed by `send_budget_alert`.
* The fixed demo user of `get_current_user` is passed as an explicit
  `user_id`; the 401 guard for a missing demo user is outside every claim.
-/

structure Date where
  year : ℕ
  month : ℕ
  day : ℕ
deriving DecidableEq, Repr

/-- SQL date comparison `a <= b` on (year, month, day), lexicographically. -/
def dateLE (a b : Date) : Bool :=
  decide (a.year < b.year) ||
    (decide (a.year = b.year) &&
      (decide (a.month < b.month) ||
        (decide (a.month = b.month) && decide (a.day ≤ b.day))))

/-- SQL date comparison `a < b` on (year, month, day), lexicographically. -/
def dateLT (a b : Date) : Bool :=
  decide (a.year < b.year) ||
    (decide (a.year = b.year) &&
      (decide (a.month < b.month) ||
        (decide (a.month = b.month) && decide (a.day < b.day))))

/-- Row of the `transaction` table (models.py, class Transaction). -/
structure Transaction where
  id : ℕ
  user_id : ℕ
  category_id : Option ℕ
  amount : ℤ
  type : String
  description : Option String
  transaction_date : Date
deriving DecidableEq, Repr

/-- Row of the `budget` table (models.py, class Budget). -/
structure Budget where
  id : ℕ
  user_id : ℕ
  category_id : Option ℕ
  month : ℕ
  year : ℕ
  limit_amount : ℤ
  alert_sent : Bool
deriving DecidableEq, Repr

/-- Row of the `category` table (models.py, class Category; `user_id` is a
nullable column there, hence `Option ℕ`). -/
structure Category where
  id : ℕ
  user_id : Option ℕ
  name : String
  type : String
deriving DecidableEq, Repr

/-- The durable store behind `db.session`: all rows of the three tables the
core reads and writes. -/
structure Store where
  transactions : List Transaction
  budgets : List Budget
  categories : List Category
deriving DecidableEq, Repr

/-- One alert printed by `send_budget_alert` (routes.py:116-121), recorded as
an event value: recipient, budget identity, scope, spent and limit. -/
structure AlertEvent where
  user_id : ℕ
  budget_id : ℕ
  month : ℕ
  year : ℕ
  spent : ℤ
  limit_amount : ℤ
deriving DecidableEq, Repr

/-- `get_month_bounds` (routes.py:77-83): start is the first day of the month,
end the first day of the next month, rolling the year after December. -/
def get_month_bounds (year month : ℕ) : Date × Date :=
  (⟨year, month, 1⟩,
    if month = 12 then ⟨year + 1, 1, 1⟩ else ⟨year, month + 1, 1⟩)

/-- Membership of a date in the half-open window [start, stop), as used by
every windowed query in routes.py (`>= start`, `< end`). -/
def in_window (start stop d : Date) : Bool :=
  dateLE start d && dateLT d stop

/-- Python truthiness of an optional integer (`if category_id:` at
routes.py:94): `None` and `0` are falsy. -/
def optTruthy : Option ℕ → Bool
  | none => false
  | some n => decide (n ≠ 0)

/-- `get_expense_total` (routes.py:86-96): sum of expense amounts of the user
in the month window, optionally restricted to one category.  The SQL sum over
`Numeric(10,2)` is exact decimal arithmetic, modelled as a rational sum. -/
def get_expense_total (txns : List Transaction) (user_id month year : ℕ)
    (category_id : Option ℕ) : ℤ :=
  let b := get_month_bounds year month
  ((txns.filter fun t =>
      decide (t.user_id = user_id) && decide (t.type = "expense") &&
        in_window b.1 b.2 t.transaction_date &&
        (!optTruthy category_id || decide (t.category_id = category_id))).map
    fun t => t.amount).sum

/-- `get_income_total` (routes.py:99-107). -/
def get_income_total (txns : List Transaction) (user_id month year : ℕ) : ℤ :=
  let b := get_month_bounds year month
  ((txns.filter fun t =>
      decide (t.user_id = user_id) && decide (t.type = "income") &&
        in_window b.1 b.2 t.transaction_date).map
    fun t => t.amount).sum

/-- Status payload of `compute_budget_status` (routes.py:110-113). -/
structure BudgetStatus where
  spent : ℤ
  remaining : ℤ
deriving DecidableEq, Repr

/-- `compute_budget_status` (routes.py:110-113). -/
def compute_budget_status (txns : List Transaction) (b : Budget) : BudgetStatus :=
  let spent := get_expense_total txns b.user_id b.month b.year b.category_id
  ⟨spent, b.limit_amount - spent⟩

/-- `send_budget_alert` (routes.py:116-121) as an event value. -/
def send_budget_alert (b : Budget) (spent : ℤ) : AlertEvent :=
  ⟨b.user_id, b.id, b.month, b.year, spent, b.limit_amount⟩

/-- Loop body of `evaluate_budgets_for_month` (routes.py:127-134): recompute
spent, compare strictly against the limit, emit an alert on the false→true
transition, silently reset the flag on the true→false transition. -/
def eval_budget (txns : List Transaction) (b : Budget) : Budget × List AlertEvent :=
  let spent := get_expense_total txns b.user_id b.month b.year b.category_id
  let over_limit : Bool := decide (b.limit_amount < spent)
  if over_limit && !b.alert_sent then
    ({ b with alert_sent := true }, [send_budget_alert b spent])
  else if !over_limit && b.alert_sent then
    ({ b with alert_sent := false }, [])
  else
    (b, [])

/-- The scope filter `Budget.query.filter_by(user_id=..., month=..., year=...)`
of routes.py:125. -/
def in_scope (b : Budget) (user_id month year : ℕ) : Bool :=
  decide (b.user_id = user_id) && decide (b.month = month) && decide (b.year = year)

/-- Effect of one pass of the evaluator loop on a single stored budget row:
rows outside the queried scope are untouched. -/
def eval_step (txns : List Transaction) (user_id month year : ℕ) (b : Budget) :
    Budget × List AlertEvent :=
  if in_scope b user_id month year then eval_budget txns b else (b, [])

/-- `evaluate_budgets_for_month` (routes.py:124-135): evaluate every budget of
the (user, month, year) scope against the current transactions; returns the
committed store and the alerts emitted, in budget row order. -/
def evaluate_budgets_for_month (s : Store) (user_id month year : ℕ) :
    Store × List AlertEvent :=
  ({ s with budgets := s.budgets.map fun b => (eval_step s.transactions user_id month year b).1 },
    (s.budgets.map fun b => (eval_step s.transactions user_id month year b).2).flatten)

/-- After one evaluation a budget's fields are unchanged except `alert_sent`,
which now equals the over-limit bit. -/
theorem eval_budget_fst (txns : List Transaction) (b : Budget) :
    (eval_budget txns b).1 =
      { b with alert_sent :=
          decide (b.limit_amount < get_expense_total txns b.user_id b.month b.year b.category_id) } := by
  rcases b with ⟨id, uid, cid, mo, yr, lim, sent⟩
  simp only [eval_budget]
  rcases hs : decide (lim < get_expense_total txns uid mo yr cid) <;> cases sent <;>
    simp [hs]

/-- A budget whose flag already equals the over-limit bit is left alone and
emits nothing. -/
theorem eval_budget_fixed (txns : List Transaction) (b : Budget)
    (h : b.alert_sent =
      decide (b.limit_amount < get_expense_total txns b.user_id b.month b.year b.category_id)) :
    eval_budget txns b = (b, []) := by
  rcases b with ⟨id, uid, cid, mo, yr, lim, sent⟩
  simp only at h
  simp only [eval_budget]
  rcases hs : decide (lim < get_expense_total txns uid mo yr cid) <;>
    rw [hs] at h <;> subst h <;> simp [hs]

/-- One evaluator pass is a fixed point of the per-row step. -/
theorem eval_step_idem (txns : List Transaction) (user_id month year : ℕ) (b : Budget) :
    eval_step txns user_id month year ((eval_step txns user_id month year b).1) =
      ((eval_step txns user_id month year b).1, []) := by
  by_cases h : in_scope b user_id month year
  · have hb1 : (eval_step txns user_id month year b).1 = (eval_budget txns b).1 := by
      simp [eval_step, h]
    rw [hb1, eval_budget_fst]
    rcases b with ⟨id, uid, cid, mo, yr, lim, sent⟩
    have hsc : in_scope
        ({ id := id, user_id := uid, category_id := cid, month := mo, year := yr,
           limit_amount := lim,
           alert_sent := decide (lim < get_expense_total txns uid mo yr cid) } : Budget)
        user_id month year = true := by
      simpa [in_scope] using h
    simp only [eval_step, hsc, if_true]
    exact eval_budget_fixed txns _ rfl
  · have hb : eval_step txns user_id month year b = (b, []) := by
      simp [eval_step, h]
    rw [hb]
    simpa [eval_step] using hb

/-- List form of idempotence: re-running the per-row step over an already
evaluated row list changes nothing and produces no events. -/
theorem eval_step_list_idem (txns : List Transaction) (user_id month year : ℕ) :
    ∀ l : List Budget,
      ((l.map fun b => (eval_step txns user_id month year b).1).map
          fun b => (eval_step txns user_id month year b).1) =
        (l.map fun b => (eval_step txns user_id month year b).1) ∧
      ((l.map fun b => (eval_step txns user_id month year b).1).map
          fun b => (eval_step txns user_id month year b).2).flatten = []
  | [] => by simp
  | b :: l => by
    have h := eval_step_idem txns user_id month year b
    have h1 : (eval_step txns user_id month year ((eval_step txns user_id month year b).1)).1 =
        (eval_step txns user_id month year b).1 := by rw [h]
    have h2 : (eval_step txns user_id month year ((eval_step txns user_id month year b).1)).2 =
        ([] : List AlertEvent) := by rw [h]
    have ih := eval_step_list_idem txns user_id month year l
    simp only [List.map_cons, List.flatten_cons, h1, h2, ih.1, ih.2, List.nil_append,
      List.cons.injEq, true_and]

/-- Claim C1: the budget evaluator is idempotent.  For every (user, month,
year) scope, running `evaluate_budgets_for_month` a second time with no
intervening change to transactions or budgets emits no alert event and leaves
every budget — in particular every `alert_sent` flag — exactly as the first
run left it. -/
theorem evaluate_budgets_for_month_idempotent (s : Store) (user_id month year : ℕ) :
    evaluate_budgets_for_month (evaluate_budgets_for_month s user_id month year).1
        user_id month year =
      ((evaluate_budgets_for_month s user_id month year).1, []) := by
  rcases s with ⟨txns, budgets, cats⟩
  have key := eval_step_list_idem txns user_id month year budgets
  simp only [evaluate_budgets_for_month, Prod.mk.injEq, Store.mk.injEq]
  exact ⟨⟨trivial, key.1, trivial⟩, key.2⟩

/-- Claim C2: the evaluator's over-limit condition is the strict comparison
`spent > limit_amount`.  When spent equals the limit exactly the budget is not
over limit: no alert is emitted and `alert_sent` is not set to true (the run
leaves it false). -/
theorem over_limit_strict_boundary (txns : List Transaction) (b : Budget)
    (h : get_expense_total txns b.user_id b.month b.year b.category_id = b.limit_amount) :
    (eval_budget txns b).2 = [] ∧ (eval_budget txns b).1.alert_sent = false := by
  rcases b with ⟨id, uid, cid, mo, yr, lim, sent⟩
  simp only at h
  have hov : decide (lim < get_expense_total txns uid mo yr cid) = false := by
    rw [h]
    simp
  cases sent <;> simp [eval_budget, hov]

/-- Witness for C2: one June-2024 expense of 50 against a limit of exactly 50;
the evaluation emits nothing and ends with the flag false. -/
theorem over_limit_strict_boundary_witness :
    get_expense_total [⟨1, 1, none, 50, "expense", none, ⟨2024, 6, 5⟩⟩] 1 6 2024 none = (50 : ℤ) ∧
    ((eval_budget [⟨1, 1, none, 50, "expense", none, ⟨2024, 6, 5⟩⟩]
        ⟨10, 1, none, 6, 2024, 50, true⟩).2 = [] ∧
      (eval_budget [⟨1, 1, none, 50, "expense", none, ⟨2024, 6, 5⟩⟩]
        ⟨10, 1, none, 6, 2024, 50, true⟩).1.alert_sent = false) :=
  ⟨by decide,
    over_limit_strict_boundary [⟨1, 1, none, 50, "expense", none, ⟨2024, 6, 5⟩⟩]
      ⟨10, 1, none, 6, 2024, 50, true⟩ (by decide)⟩

/-- Claim C3: a budget whose flag is set while its recomputed spent is at or
below the limit is silently reset on the next evaluation of its row: the flag
returns to false and no event of any kind is emitted. -/
theorem alert_reset_is_silent (txns : List Transaction) (b : Budget)
    (h1 : b.alert_sent = true)
    (h2 : get_expense_total txns b.user_id b.month b.year b.category_id ≤ b.limit_amount) :
    eval_budget txns b = ({ b with alert_sent := false }, []) := by
  rcases b with ⟨id, uid, cid, mo, yr, lim, sent⟩
  simp only at h1 h2
  subst h1
  have hov : decide (lim < get_expense_total txns uid mo yr cid) = false := by
    simpa using not_lt.mpr h2
  simp [eval_budget, hov]

/-- Witness for C3: spent 30 against limit 60 with the flag set; evaluation
resets the flag and emits no event. -/
theorem alert_reset_is_silent_witness :
    (Budget.alert_sent ⟨10, 1, none, 6, 2024, 60, true⟩ = true ∧
      get_expense_total [⟨1, 1, none, 30, "expense", none, ⟨2024, 6, 5⟩⟩] 1 6 2024 none ≤ (60 : ℤ)) ∧
    eval_budget [⟨1, 1, none, 30, "expense", none, ⟨2024, 6, 5⟩⟩]
        ⟨10, 1, none, 6, 2024, 60, true⟩ =
      (⟨10, 1, none, 6, 2024, 60, false⟩, []) :=
  ⟨⟨rfl, by decide⟩,
    alert_reset_is_silent [⟨1, 1, none, 30, "expense", none, ⟨2024, 6, 5⟩⟩]
      ⟨10, 1, none, 6, 2024, 60, true⟩ rfl (by decide)⟩

/-- Gregorian leap-year rule, used only to name the last day of a month when
stating the window-boundary property of claim C4. -/
def is_leap (y : ℕ) : Bool :=
  (y % 4 == 0 && y % 100 != 0) || y % 400 == 0

/-- Number of days of a Gregorian month, used to state which date is the last
day of month `m` of year `y` in claim C4. -/
def days_in_month (y m : ℕ) : ℕ :=
  if m = 2 then (if is_leap y then 29 else 28)
  else if m = 4 ∨ m = 6 ∨ m = 9 ∨ m = 11 then 30 else 31

theorem dateLT_irrefl (d : Date) : dateLT d d = false := by
  simp [dateLT]

/-- Claim C4: for every month in [1,12], `get_month_bounds` returns the first
day of the month and the first day of the following month (January of the
next year after December); the last day of the month lies inside the half-open
window and the first day of the following month lies outside it. -/
theorem get_month_bounds_correct (year month : ℕ) (h1 : 1 ≤ month) (h2 : month ≤ 12) :
    (get_month_bounds year month).1 = ⟨year, month, 1⟩ ∧
    (get_month_bounds year month).2 =
      (if month = 12 then ⟨year + 1, 1, 1⟩ else ⟨year, month + 1, 1⟩) ∧
    in_window (get_month_bounds year month).1 (get_month_bounds year month).2
      ⟨year, month, days_in_month year month⟩ = true ∧
    in_window (get_month_bounds year month).1 (get_month_bounds year month).2
      (get_month_bounds year month).2 = false := by
  refine ⟨rfl, rfl, ?_, ?_⟩
  · simp only [get_month_bounds, in_window, dateLE, dateLT, days_in_month, is_leap,
      Bool.and_eq_true, Bool.or_eq_true, decide_eq_true_eq]
    split_ifs <;> simp
  · simp only [in_window, dateLT_irrefl, Bool.and_false]

/-- Witness for C4 at the December rollover: the window of 2024-12 spans
Dec 1 through Dec 31 and excludes 2025-01-01. -/
theorem get_month_bounds_correct_witness :
    (1 ≤ 12 ∧ 12 ≤ 12) ∧
    ((get_month_bounds 2024 12).1 = ⟨2024, 12, 1⟩ ∧
      (get_month_bounds 2024 12).2 =
        (if 12 = 12 then ⟨2024 + 1, 1, 1⟩ else ⟨2024, 12 + 1, 1⟩) ∧
      in_window (get_month_bounds 2024 12).1 (get_month_bounds 2024 12).2
        ⟨2024, 12, days_in_month 2024 12⟩ = true ∧
      in_window (get_month_bounds 2024 12).1 (get_month_bounds 2024 12).2
        (get_month_bounds 2024 12).2 = false) :=
  ⟨by decide, get_month_bounds_correct 2024 12 (by decide) (by decide)⟩

theorem map_get? (f : α → β) : ∀ (l : List α) (i : ℕ),
    (l.map f).get? i = (l.get? i).map f
  | [], _ => rfl
  | _ :: _, 0 => rfl
  | _ :: l, i + 1 => map_get? f l i

/-- A budget row outside the evaluated (user, month, year) scope is returned
by `evaluate_budgets_for_month` exactly as stored, flag included. -/
theorem evaluate_budgets_frame (s : Store) (user_id month year : ℕ) (i : ℕ) (b : Budget)
    (hb : s.budgets.get? i = some b) (hs : in_scope b user_id month year = false) :
    ((evaluate_budgets_for_month s user_id month year).1).budgets.get? i = some b := by
  simp only [evaluate_budgets_for_month]
  rw [map_get?, hb]
  simp [eval_step, hs]

/-- In-place mutation of the one row SQLAlchemy's `.first()` returned,
expressed positionally on the row list. -/
def replaceFirst (p : α → Bool) (a : α) : List α → List α
  | [] => []
  | x :: xs => if p x then a :: xs else x :: replaceFirst p a xs

theorem replaceFirst_get?_of_not (p : α → Bool) (a : α) :
    ∀ (l : List α) (i : ℕ) (b : α), l.get? i = some b → p b = false →
      (replaceFirst p a l).get? i = some b
  | [], i, b => by
    intro h _
    simp at h
  | x :: xs, 0, b => by
    intro h hp
    simp only [List.get?_cons_zero, Option.some.injEq] at h
    subst h
    simp [replaceFirst, hp]
  | x :: xs, i + 1, b => by
    intro h hp
    simp only [List.get?_cons_succ] at h
    by_cases hx : p x
    · rw [replaceFirst, if_pos hx]
      simpa using h
    · simpa [replaceFirst, hx] using replaceFirst_get?_of_not p a xs i b h hp

/-- Validated payload of a transaction create/update, the dict returned by
`parse_transaction_payload` (routes.py:42-48); the amount is in cents. -/
structure ParsedTx where
  amount : ℤ
  type : String
  category_id : Option ℕ
  description : Option String
  transaction_date : Date
deriving DecidableEq, Repr

/-- `update_transaction` (routes.py:217-232): look up the row by id and owner
(404 → `none`), overwrite all payload fields, commit, then re-evaluate the
budgets of the *updated* transaction's (owner, month, year) scope via
`evaluate_budgets_for_transaction` (routes.py:138-141). -/
def update_transaction (s : Store) (user_id transaction_id : ℕ) (data : ParsedTx) :
    Option (Store × List AlertEvent) :=
  match s.transactions.find?
      (fun t => decide (t.id = transaction_id) && decide (t.user_id = user_id)) with
  | none => none
  | some t =>
    let t2 : Transaction :=
      { t with amount := data.amount, type := data.type, category_id := data.category_id,
               description := data.description, transaction_date := data.transaction_date }
    let txs2 : List Transaction :=
      replaceFirst (fun t => decide (t.id = transaction_id) && decide (t.user_id = user_id))
        t2 s.transactions
    some (evaluate_budgets_for_month { s with transactions := txs2 }
      t2.user_id t2.transaction_date.month t2.transaction_date.year)

/-- Claim C5: a transaction update re-evaluates only the new (owner, month,
year) scope of the updated transaction.  Every budget row outside that new
scope — in particular every budget of the old scope when the date moved to a
different month or year — is left exactly as it was, `alert_sent` included. -/
theorem update_transaction_only_new_scope (s : Store) (user_id transaction_id : ℕ)
    (data : ParsedTx) (res : Store × List AlertEvent)
    (h : update_transaction s user_id transaction_id data = some res)
    (i : ℕ) (b : Budget) (hb : s.budgets.get? i = some b)
    (hs : in_scope b user_id data.transaction_date.month data.transaction_date.year = false) :
    res.1.budgets.get? i = some b := by
  unfold update_transaction at h
  cases hf : s.transactions.find?
      (fun t => decide (t.id = transaction_id) && decide (t.user_id = user_id)) with
  | none =>
    simp only [hf] at h
    exact Option.noConfusion h
  | some t =>
    have hpred := List.find?_some hf
    rcases t with ⟨tid, tuid, tcid, tam, tty, tde, tda⟩
    simp only [Bool.and_eq_true, decide_eq_true_eq] at hpred
    obtain ⟨_, htu⟩ := hpred
    subst htu
    simp only [hf, Option.some.injEq] at h
    subst h
    exact evaluate_budgets_frame _ tuid data.transaction_date.month
      data.transaction_date.year i b hb hs

/-- Witness for C5: moving the only transaction from June to July 2024 leaves
the March-2024 budget row (outside the new July scope) intact. -/
theorem update_transaction_only_new_scope_witness :
    (update_transaction
        ⟨[⟨1, 1, none, 500, "expense", none, ⟨2024, 6, 10⟩⟩],
          [⟨10, 1, none, 3, 2024, 10000, true⟩], []⟩
        1 1 ⟨500, "expense", none, none, ⟨2024, 7, 2⟩⟩ =
      some (⟨[⟨1, 1, none, 500, "expense", none, ⟨2024, 7, 2⟩⟩],
          [⟨10, 1, none, 3, 2024, 10000, true⟩], []⟩, [])) ∧
    ((⟨[⟨1, 1, none, 500, "expense", none, ⟨2024, 7, 2⟩⟩],
          [⟨10, 1, none, 3, 2024, 10000, true⟩], []⟩ : Store),
        ([] : List AlertEvent)).1.budgets.get? 0 =
      some ⟨10, 1, none, 3, 2024, 10000, true⟩ :=
  ⟨by decide,
    update_transaction_only_new_scope
      ⟨[⟨1, 1, none, 500, "expense", none, ⟨2024, 6, 10⟩⟩],
        [⟨10, 1, none, 3, 2024, 10000, true⟩], []⟩
      1 1 ⟨500, "expense", none, none, ⟨2024, 7, 2⟩⟩
      (⟨[⟨1, 1, none, 500, "expense", none, ⟨2024, 7, 2⟩⟩],
          [⟨10, 1, none, 3, 2024, 10000, true⟩], []⟩, [])
      (by decide) 0 ⟨10, 1, none, 3, 2024, 10000, true⟩ rfl rfl⟩

/-- Validated payload of a budget create/update, the dict returned by
`parse_budget_payload` (routes.py:69-74); the limit is in cents. -/
structure ParsedBudget where
  month : ℕ
  year : ℕ
  limit_amount : ℤ
  category_id : Option ℕ
deriving DecidableEq, Repr

/-- `update_budget` (routes.py:284-299): look up the budget by id and owner
(404 → `none`), overwrite all payload fields, commit, then re-evaluate the
budgets of the budget's *new* (owner, month, year) scope. -/
def update_budget (s : Store) (user_id budget_id : ℕ) (data : ParsedBudget) :
    Option (Store × List AlertEvent) :=
  match s.budgets.find?
      (fun x => decide (x.id = budget_id) && decide (x.user_id = user_id)) with
  | none => none
  | some b =>
    let b2 : Budget := { b with month := data.month, year := data.year,
                                limit_amount := data.limit_amount,
                                category_id := data.category_id }
    let bs2 : List Budget :=
      replaceFirst (fun x => decide (x.id = budget_id) && decide (x.user_id = user_id))
        b2 s.budgets
    some (evaluate_budgets_for_month { s with budgets := bs2 } user_id b2.month b2.year)

/-- Claim C10: a budget update that (possibly) moves the budget to another
month or year re-evaluates only the new (owner, month, year) scope.  Every
other budget row outside that new scope — in particular the rows remaining in
the old scope — keeps its stored value, `alert_sent` included. -/
theorem update_budget_only_new_scope (s : Store) (user_id budget_id : ℕ)
    (data : ParsedBudget) (res : Store × List AlertEvent)
    (h : update_budget s user_id budget_id data = some res)
    (i : ℕ) (b : Budget) (hb : s.budgets.get? i = some b)
    (hid : b.id ≠ budget_id)
    (hs : in_scope b user_id data.month data.year = false) :
    res.1.budgets.get? i = some b := by
  unfold update_budget at h
  cases hf : s.budgets.find?
      (fun x => decide (x.id = budget_id) && decide (x.user_id = user_id)) with
  | none =>
    simp only [hf] at h
    exact Option.noConfusion h
  | some bf =>
    rcases bf with ⟨fid, fuid, fcid, fmo, fyr, flim, fsent⟩
    simp only [hf, Option.some.injEq] at h
    subst h
    have hpb : (fun x : Budget =>
        decide (x.id = budget_id) && decide (x.user_id = user_id)) b = false := by
      simp [hid]
    exact evaluate_budgets_frame _ user_id data.month data.year i b
      (replaceFirst_get?_of_not _ _ s.budgets i b hb hpb) hs

/-- Witness for C10: moving budget 10 from March to April 2024 leaves the
other March budget (row 1) untouched, its set flag included. -/
theorem update_budget_only_new_scope_witness :
    (update_budget
        ⟨[], [⟨10, 1, none, 3, 2024, 10000, false⟩, ⟨20, 1, none, 3, 2024, 5000, true⟩], []⟩
        1 10 ⟨4, 2024, 10000, none⟩ =
      some (⟨[], [⟨10, 1, none, 4, 2024, 10000, false⟩, ⟨20, 1, none, 3, 2024, 5000, true⟩],
        []⟩, [])) ∧
    ((⟨[], [⟨10, 1, none, 4, 2024, 10000, false⟩, ⟨20, 1, none, 3, 2024, 5000, true⟩], []⟩ :
          Store),
        ([] : List AlertEvent)).1.budgets.get? 1 = some ⟨20, 1, none, 3, 2024, 5000, true⟩ :=
  ⟨by decide,
    update_budget_only_new_scope
      ⟨[], [⟨10, 1, none, 3, 2024, 10000, false⟩, ⟨20, 1, none, 3, 2024, 5000, true⟩], []⟩
      1 10 ⟨4, 2024, 10000, none⟩
      (⟨[], [⟨10, 1, none, 4, 2024, 10000, false⟩, ⟨20, 1, none, 3, 2024, 5000, true⟩], []⟩, [])
      (by decide) 1 ⟨20, 1, none, 3, 2024, 5000, true⟩ rfl (by decide) rfl⟩

/-- One row of the summary's per-category breakdown (routes.py:364-372). -/
structure CatRow where
  category_id : ℕ
  category_name : String
  type : String
  total : ℤ
deriving DecidableEq, Repr

/-- Total of the outer-join aggregation of routes.py:328-348 for one category:
sum of the user's transaction amounts (either type) carrying that category
within the month window; zero when nothing matches the join condition. -/
def category_window_total (s : Store) (user_id month year : ℕ) (cid : ℕ) : ℤ :=
  let b := get_month_bounds year month
  ((s.transactions.filter fun t =>
      decide (t.category_id = some cid) && decide (t.user_id = user_id) &&
        in_window b.1 b.2 t.transaction_date).map fun t => t.amount).sum

/-- The `by_category` list of the monthly summary (routes.py:328-348): the
outer join groups by the category primary key, so there is one row per
category of the user, whether or not any transaction matched.  (The SQL
`ORDER BY name` only permutes rows and is immaterial to the claims.) -/
def by_category_rows (s : Store) (user_id month year : ℕ) : List CatRow :=
  (s.categories.filter fun c => decide (c.user_id = some user_id)).map fun c =>
    ⟨c.id, c.name, c.type, category_window_total s user_id month year c.id⟩

/-- The JSON document returned by GET /api/summary/monthly (routes.py:357-375). -/
structure Summary where
  month : ℕ
  year : ℕ
  total_income : ℤ
  total_expense : ℤ
  net : ℤ
  by_category : List CatRow
  budgets : List (Budget × BudgetStatus)
deriving DecidableEq, Repr

/-- `monthly_summary` (routes.py:316-375) as a pure query: totals, net,
per-category breakdown, and the scoped budgets enriched with their status,
overall (category-less) budgets first. -/
def monthly_summary (s : Store) (user_id month year : ℕ) : Summary :=
  let total_income := get_income_total s.transactions user_id month year
  let total_expense := get_expense_total s.transactions user_id month year none
  let matching := s.budgets.filter fun b => in_scope b user_id month year
  let ordered := (matching.filter fun b => decide (b.category_id = none)) ++
    (matching.filter fun b => !decide (b.category_id = none))
  { month := month, year := year, total_income := total_income,
    total_expense := total_expense, net := total_income - total_expense,
    by_category := by_category_rows s user_id month year,
    budgets := ordered.map fun b => (b, compute_budget_status s.transactions b) }

/-- Claim C6: the per-category breakdown of the monthly summary contains a row
for every category owned by the user; a category with no matching transaction
in the window still appears, with total 0. -/
theorem monthly_summary_categories_complete (s : Store) (user_id month year : ℕ)
    (c : Category) (hc : c ∈ s.categories) (hu : c.user_id = some user_id) :
    (⟨c.id, c.name, c.type, category_window_total s user_id month year c.id⟩ : CatRow) ∈
      (monthly_summary s user_id month year).by_category ∧
    ((∀ t ∈ s.transactions,
        (decide (t.category_id = some c.id) && decide (t.user_id = user_id) &&
          in_window (get_month_bounds year month).1 (get_month_bounds year month).2
            t.transaction_date) = false) →
      category_window_total s user_id month year c.id = 0) := by
  constructor
  · have hmem : c ∈ s.categories.filter (fun c => decide (c.user_id = some user_id)) :=
      List.mem_filter.mpr ⟨hc, by simp [hu]⟩
    simpa [monthly_summary, by_category_rows] using
      List.mem_map_of_mem
        (fun c => (⟨c.id, c.name, c.type,
          category_window_total s user_id month year c.id⟩ : CatRow)) hmem
  · intro hnone
    have hfil : s.transactions.filter (fun t =>
        decide (t.category_id = some c.id) && decide (t.user_id = user_id) &&
          in_window (get_month_bounds year month).1 (get_month_bounds year month).2
            t.transaction_date) = [] := by
      apply List.filter_eq_nil_iff.mpr
      intro t ht
      simp [hnone t ht]
    simp [category_window_total, hfil]

/-- Witness for C6: a store with one category and no transactions; the Food
category appears in the breakdown and its total is 0. -/
theorem monthly_summary_categories_complete_witness :
    ((⟨1, some 1, "Food", "expense"⟩ : Category) ∈
        (⟨[], [], [⟨1, some 1, "Food", "expense"⟩]⟩ : Store).categories ∧
      (⟨1, some 1, "Food", "expense"⟩ : Category).user_id = some 1) ∧
    ((⟨1, "Food", "expense",
        category_window_total ⟨[], [], [⟨1, some 1, "Food", "expense"⟩]⟩ 1 6 2024 1⟩ : CatRow) ∈
        (monthly_summary ⟨[], [], [⟨1, some 1, "Food", "expense"⟩]⟩ 1 6 2024).by_category ∧
      ((∀ t ∈ (⟨[], [], [⟨1, some 1, "Food", "expense"⟩]⟩ : Store).transactions,
          (decide (t.category_id = some 1) && decide (t.user_id = 1) &&
            in_window (get_month_bounds 2024 6).1 (get_month_bounds 2024 6).2
              t.transaction_date) = false) →
        category_window_total ⟨[], [], [⟨1, some 1, "Food", "expense"⟩]⟩ 1 6 2024 1 = 0)) :=
  ⟨⟨by simp, rfl⟩,
    monthly_summary_categories_complete ⟨[], [], [⟨1, some 1, "Food", "expense"⟩]⟩
      1 6 2024 ⟨1, some 1, "Food", "expense"⟩ (by simp) rfl⟩

/-- The GET /api/summary/monthly handler as a state transformer: it computes
the summary and hands the session back; the source performs only queries
(no `add`, `delete`, attribute write or destructive `commit`). -/
def monthly_summary_route (s : Store) (user_id month year : ℕ) : Summary × Store :=
  (monthly_summary s user_id month year, s)

/-- Claim C8: the monthly summary report is read-only: producing it leaves
every stored transaction, budget (hence every `alert_sent` flag) and category
unchanged — the resulting store is the input store. -/
theorem monthly_summary_read_only (s : Store) (user_id month year : ℕ) :
    (monthly_summary_route s user_id month year).2.transactions = s.transactions ∧
    (monthly_summary_route s user_id month year).2.budgets = s.budgets ∧
    (monthly_summary_route s user_id month year).2.categories = s.categories ∧
    (monthly_summary_route s user_id month year).2 = s :=
  ⟨rfl, rfl, rfl, rfl⟩

/-- The `transaction_date` field of a JSON payload: missing (or a falsy empty
string), present but not ISO `YYYY-MM-DD`, or a well-formed date. -/
inductive DateField where
  | absent : DateField
  | invalid : DateField
  | valid : Date → DateField
deriving DecidableEq, Repr

/-- JSON body of POST/PUT /api/transactions.  A numeric amount is modelled in
cents; `amount = none` is a missing field.  (The route never checks that the
amount is numeric, only that it is present; non-numeric payloads are outside
the model.) -/
structure TxPayload where
  amount : Option ℤ
  type : Option String
  category_id : Option ℕ
  description : Option String
  transaction_date : DateField
deriving DecidableEq, Repr

/-- `parse_transaction_payload` (routes.py:24-48): 400 when the body is
missing, the amount is missing, the type is not income/expense, or a supplied
date is malformed; otherwise the validated dict, defaulting the date to
today.  No check concerns the amount's value or sign. -/
def parse_transaction_payload (payload : Option TxPayload) (today : Date) :
    Except String ParsedTx :=
  match payload with
  | none => Except.error "JSON body required"
  | some p =>
    match p.amount, p.type with
    | none, _ => Except.error "'amount' and valid 'type' are required"
    | some _, none => Except.error "'amount' and valid 'type' are required"
    | some a, some ty =>
      if ty = "income" ∨ ty = "expense" then
        match p.transaction_date with
        | DateField.invalid =>
            Except.error "transaction_date must be ISO format YYYY-MM-DD"
        | DateField.absent =>
            Except.ok ⟨a, ty, p.category_id, p.description, today⟩
        | DateField.valid d =>
            Except.ok ⟨a, ty, p.category_id, p.description, d⟩
      else Except.error "'amount' and valid 'type' are required"

/-- `create_transaction` (routes.py:203-214): validate, append the new row,
commit, then evaluate the budgets of the transaction's scope. -/
def create_transaction (s : Store) (user_id : ℕ) (payload : Option TxPayload)
    (today : Date) (new_id : ℕ) : Except String (Store × List AlertEvent) :=
  match parse_transaction_payload payload today with
  | Except.error e => Except.error e
  | Except.ok d =>
    let t : Transaction :=
      ⟨new_id, user_id, d.category_id, d.amount, d.type, d.description, d.transaction_date⟩
    Except.ok (evaluate_budgets_for_month { s with transactions := s.transactions ++ [t] }
      user_id d.transaction_date.month d.transaction_date.year)

/-- `delete_transaction` (routes.py:235-248): look up the row by id and owner
(404 → `none`), capture its month and year, delete it, commit, then evaluate
the budgets of the captured scope. -/
def delete_transaction (s : Store) (user_id transaction_id : ℕ) :
    Option (Store × List AlertEvent) :=
  match s.transactions.find?
      (fun t => decide (t.id = transaction_id) && decide (t.user_id = user_id)) with
  | none => none
  | some t =>
    let txs2 := s.transactions.eraseP
      (fun x => decide (x.id = transaction_id) && decide (x.user_id = user_id))
    some (evaluate_budgets_for_month { s with transactions := txs2 }
      user_id t.transaction_date.month t.transaction_date.year)

/-- Counterexample to claim C9 as stated: a payload with the negative amount
-5.00 and a valid type is not rejected with 400; the create route accepts it
and stores a transaction with amount -5.00. -/
theorem negative_amount_transaction_stored :
    create_transaction ⟨[], [], []⟩ 1
        (some ⟨some (-500), some "expense", none, none, DateField.absent⟩)
        ⟨2024, 6, 10⟩ 7 =
      Except.ok (⟨[⟨7, 1, none, -500, "expense", none, ⟨2024, 6, 10⟩⟩], [], []⟩, []) := by
  rfl

/-- Claim C9 (amended): create/update returns 400 exactly when the amount is
missing, the type is not income/expense, or a supplied transaction_date is
malformed; the amount's value is never validated, and an accepted payload's
amount — negative included — is stored unchanged. -/
theorem parse_transaction_payload_no_sign_check (p : TxPayload) (today : Date) :
    ((∃ e, parse_transaction_payload (some p) today = Except.error e) ↔
      (p.amount = none ∨ (p.type ≠ some "income" ∧ p.type ≠ some "expense") ∨
        p.transaction_date = DateField.invalid)) ∧
    (∀ a r, p.amount = some a → parse_transaction_payload (some p) today = Except.ok r →
      r.amount = a) := by
  rcases p with ⟨am, ty, cid, de, td⟩
  cases am with
  | none => simp [parse_transaction_payload]
  | some a =>
    cases ty with
    | none => simp [parse_transaction_payload]
    | some ty =>
      by_cases hty : ty = "income" ∨ ty = "expense"
      · rcases hty with h | h <;> subst h <;> cases td <;>
          simp [parse_transaction_payload]
      · rw [not_or] at hty
        cases td <;> simp [parse_transaction_payload, hty.1, hty.2]

/-- Witness for C9 (amended): the parsed record of a negative-amount payload
keeps the amount -5.00. -/
theorem parse_transaction_payload_no_sign_check_witness :
    ParsedTx.amount ⟨-500, "expense", none, none, ⟨2024, 6, 10⟩⟩ = -500 :=
  (parse_transaction_payload_no_sign_check
      ⟨some (-500), some "expense", none, none, DateField.absent⟩ ⟨2024, 6, 10⟩).2
    (-500) ⟨-500, "expense", none, none, ⟨2024, 6, 10⟩⟩ rfl rfl
